import Mathlib

/-!
Shallow embedding of the CleanAirRoute route-evaluation engine.

The definitions below are translated from
`src/backend/cleanair-route/domain/air_quality/air_quality_service.py`
(class `AirQualityService`) and, where noted, from
`src/backend/services/route-logic/main.py`.  Python floats are modelled
as exact rationals (`ℚ`) except inside the Haversine distance, whose
transcendental functions are modelled over `ℝ`.  Network I/O is modelled
by passing the per-coordinate oracle response explicitly.
-/

namespace CleanAirRoute

/-- Coordinate (air_quality_schema.py `Coordinate`): latitude/longitude. -/
structure Coordinate where
  latitude : ℚ
  longitude : ℚ
deriving DecidableEq

instance : Inhabited Coordinate := ⟨⟨0, 0⟩⟩

/-- Air-quality sample (air_quality_schema.py `AirQualityData`). -/
structure AirQualityData where
  pm25 : ℚ
  pm10 : ℚ
  o3 : ℚ
  no2 : ℚ
  air_quality_index : ℤ
  grade : String
  confidence : ℚ
deriving DecidableEq

/-- `AirQualityService._create_default_air_quality` (lines 245-255):
the fixed default sample substituted when the prediction oracle fails. -/
def defaultAirQuality : AirQualityData :=
  { pm25 := 25.0
    pm10 := 40.0
    o3 := 0.05
    no2 := 0.02
    air_quality_index := 50
    grade := "moderate"
    confidence := 0.5 }

/-- One record of the oracle's `predictions` list.  Each field is optional
because the JSON record may omit keys; `_get_air_quality_predictions`
reads them with `dict.get(key, default)`. -/
structure PredictionRecord where
  predicted_pm25 : Option ℚ
  predicted_pm10 : Option ℚ
  predicted_o3 : Option ℚ
  predicted_no2 : Option ℚ
  air_quality_index : Option ℤ
  grade : Option String
  confidence : Option ℚ
deriving DecidableEq

/-- Outcome of one oracle HTTP call for one coordinate.
`error` stands for any raised exception (timeout, unreachable service,
malformed payload); `http` carries the status code, the payload's
`success` flag and its `predictions` list. -/
inductive OracleResponse where
  | error
  | http (status : ℕ) (success : Bool) (predictions : List PredictionRecord)
deriving DecidableEq

/-- Parsing of the first prediction record inside the 200/success branch of
`_get_air_quality_predictions` (lines 219-227): every missing key is
silently replaced by a per-field default; note a missing `confidence`
becomes 0.8, not the 0.5 used by the failure default. -/
def parsePrediction (pred : PredictionRecord) : AirQualityData :=
  { pm25 := pred.predicted_pm25.getD 25.0
    pm10 := pred.predicted_pm10.getD 40.0
    o3 := pred.predicted_o3.getD 0.05
    no2 := pred.predicted_no2.getD 0.02
    air_quality_index := pred.air_quality_index.getD 50
    grade := pred.grade.getD "moderate"
    confidence := pred.confidence.getD 0.8 }

/-- Body of the per-coordinate loop of `_get_air_quality_predictions`
(lines 204-237): status 200 with `success` true and a non-empty
`predictions` list yields the parsed first record; every other outcome
yields `defaultAirQuality`. -/
def getPredictionForCoord (resp : OracleResponse) : AirQualityData :=
  match resp with
  | .error => defaultAirQuality
  | .http status success predictions =>
    if status = 200 then
      match predictions with
      | pred :: _ => if success then parsePrediction pred else defaultAirQuality
      | [] => defaultAirQuality
    else defaultAirQuality

/-- `_get_air_quality_predictions` (lines 196-243): one sample per
coordinate, the coordinate's network outcome passed explicitly. -/
def getAirQualityPredictions (responses : List OracleResponse) : List AirQualityData :=
  responses.map getPredictionForCoord

/-- Predicate: the oracle call for this coordinate failed (exception,
non-200 status, `success` false, or empty `predictions` list). -/
def oracleFailed : OracleResponse → Bool
  | .error => true
  | .http status success predictions =>
    decide (status ≠ 200) || !success || predictions.isEmpty

/-- `AirQualityService._sample_route_coordinates` (lines 174-194):
linear interpolation of `num_samples + 1` points between the first and
the last waypoint; returns `[]` when fewer than 2 waypoints are given. -/
def sampleRouteCoordinates (waypoints : List Coordinate) (num_samples : ℕ) : List Coordinate :=
  if waypoints.length < 2 then []
  else
    (List.range (num_samples + 1)).map fun (i : ℕ) =>
      let ratio : ℚ := (i : ℚ) / (num_samples : ℚ)
      let start_point := waypoints.headI
      let end_point := waypoints.getLastI
      { latitude := start_point.latitude + (end_point.latitude - start_point.latitude) * ratio
        longitude := start_point.longitude + (end_point.longitude - start_point.longitude) * ratio }

/-- Average air-quality index of a sample list, as computed at line 271:
`sum(aq.air_quality_index for aq in air_quality_data) / len(air_quality_data)`. -/
def avgAqiOf (data : List AirQualityData) : ℚ :=
  (((data.map (fun aq => aq.air_quality_index)).sum : ℤ) : ℚ) / (data.length : ℚ)

/-- Route air-quality score, line 272:
`max(0, min(100, 100 - (avg_aqi - 50) * 2))`. -/
def airQualityScoreOf (data : List AirQualityData) : ℚ :=
  max 0 (min 100 (100 - (avgAqiOf data - 50) * 2))

/-- Spec-side clamp, written from the specification's words
`clamp(100 − (avgIndex − 50) × 2, 0, 100)`. -/
def clampQ (x lo hi : ℚ) : ℚ :=
  max lo (min hi x)

/-- Python's `math.radians`: degrees to radians, `x * π / 180`. -/
noncomputable def radians (x : ℝ) : ℝ :=
  x * (Real.pi / 180)

/-- Python's `math.atan2 y x`: the angle of the point `(x, y)`. -/
noncomputable def atan2 (y x : ℝ) : ℝ :=
  if 0 < x then Real.arctan (y / x)
  else if x = 0 then
    if 0 < y then Real.pi / 2
    else if y < 0 then -(Real.pi / 2)
    else 0
  else
    if 0 ≤ y then Real.arctan (y / x) + Real.pi
    else Real.arctan (y / x) - Real.pi

/-- The intermediate `a` of `_calculate_distance` (lines 385-387):
`sin(dlat/2)² + cos(lat1)·cos(lat2)·sin(dlon/2)²` with both deltas in
radians. -/
noncomputable def havA (lat1 lon1 lat2 lon2 : ℝ) : ℝ :=
  Real.sin (radians (lat2 - lat1) / 2) * Real.sin (radians (lat2 - lat1) / 2) +
    Real.cos (radians lat1) * Real.cos (radians lat2) *
      (Real.sin (radians (lon2 - lon1) / 2) * Real.sin (radians (lon2 - lon1) / 2))

/-- `AirQualityService._calculate_distance` (lines 378-392), identical to
`calculate_distance` of route-logic `main.py` (lines 75-89): Haversine
great-circle distance with earth radius `R = 6371` km. -/
noncomputable def calculate_distance (lat1 lon1 lat2 lon2 : ℝ) : ℝ :=
  6371 * (2 * atan2 (Real.sqrt (havA lat1 lon1 lat2 lon2))
    (Real.sqrt (1 - havA lat1 lon1 lat2 lon2)))

/-- Route segment (air_quality_schema.py `RouteSegment`); the Python
field `end` is named `end_` here because `end` is a Lean keyword. -/
structure RouteSegment where
  start : Coordinate
  end_ : Coordinate
  distance : ℝ
  duration : ℚ
  air_quality : AirQualityData
  instructions : String

/-- `AirQualityService._create_route_segments` (lines 315-336): one
segment per consecutive coordinate pair; fixed 5-minute duration; the
air-quality data of the segment's starting coordinate (or the default
when the sample list is too short); an ordinal instruction string. -/
noncomputable def createRouteSegments (coordinates : List Coordinate)
    (air_quality_data : List AirQualityData) : List RouteSegment :=
  (List.range (coordinates.length - 1)).map fun i =>
    let start := coordinates.getD i default
    let end_ := coordinates.getD (i + 1) default
    { start := start
      end_ := end_
      distance := calculate_distance start.latitude start.longitude end_.latitude end_.longitude
      duration := 5
      air_quality :=
        if i < air_quality_data.length then air_quality_data.getD i defaultAirQuality
        else defaultAirQuality
      instructions := toString (i + 1) ++ "번째 구간을 따라 이동하세요" }

/-- Per-pollutant average exposure map built at lines 275-280. -/
structure PollutionExposure where
  pm25 : ℚ
  pm10 : ℚ
  o3 : ℚ
  no2 : ℚ

/-- Route info (air_quality_schema.py `RouteInfo`); the datetime-free
payload of one evaluated route. -/
structure RouteInfo where
  route_id : String
  type : String
  travel_time_minutes : ℚ
  distance_km : ℚ
  average_aqi : ℚ
  air_quality_score : ℚ
  pollution_exposure : PollutionExposure
  waypoints : List Coordinate
  segments : List RouteSegment
  polyline : String

/-- A processed route candidate as consumed by `_calculate_route_scores`:
the raw candidate dict after `_process_route_candidate` attached
`sampled_coordinates` and `air_quality_data`. -/
structure ProcessedRoute where
  route_id : String
  type : String
  duration : ℚ
  distance : ℚ
  polyline : String
  sampled_coordinates : List Coordinate
  air_quality_data : List AirQualityData

/-- One element of the `scored_routes` list built at lines 302-307. -/
structure ScoredEntry where
  route_info : RouteInfo
  air_quality_score : ℚ
  duration : ℚ
  distance : ℚ

/-- Body of the per-route loop of `_calculate_route_scores`
(lines 263-311): a route with an empty `air_quality_data` list is
skipped (`continue`, modelled as `none`); otherwise the route is scored
and enriched. -/
noncomputable def scoreRoute (route : ProcessedRoute) : Option ScoredEntry :=
  if route.air_quality_data = [] then none
  else
    let air_quality_score := airQualityScoreOf route.air_quality_data
    some
      { route_info :=
          { route_id := route.route_id
            type := route.type
            travel_time_minutes := route.duration
            distance_km := route.distance
            average_aqi := avgAqiOf route.air_quality_data
            air_quality_score := air_quality_score
            pollution_exposure :=
              { pm25 := (route.air_quality_data.map (fun aq => aq.pm25)).sum / route.air_quality_data.length
                pm10 := (route.air_quality_data.map (fun aq => aq.pm10)).sum / route.air_quality_data.length
                o3 := (route.air_quality_data.map (fun aq => aq.o3)).sum / route.air_quality_data.length
                no2 := (route.air_quality_data.map (fun aq => aq.no2)).sum / route.air_quality_data.length }
            waypoints := route.sampled_coordinates
            segments := createRouteSegments route.sampled_coordinates route.air_quality_data
            polyline := route.polyline }
        air_quality_score := air_quality_score
        duration := route.duration
        distance := route.distance }

/-- `AirQualityService._calculate_route_scores` (lines 257-313): score
every route, dropping the ones whose sample list is empty. -/
noncomputable def calculateRouteScores (routes : List ProcessedRoute) : List ScoredEntry :=
  routes.filterMap scoreRoute

/-- Time-efficiency score, line 361: `max(0, 100 - route["duration"] * 2)`. -/
def timeScore (r : ScoredEntry) : ℚ :=
  max 0 (100 - r.duration * 2)

/-- Combined score, line 362: air-quality 70 %, time efficiency 30 %. -/
def combinedScore (r : ScoredEntry) : ℚ :=
  r.air_quality_score * 0.7 + timeScore r * 0.3

/-- One step of the optimal-route loop (lines 359-366): strict `>`
against the best score seen so far, so a tie keeps the earlier route. -/
def selStep (acc : Option RouteInfo × ℚ) (r : ScoredEntry) : Option RouteInfo × ℚ :=
  if combinedScore r > acc.2 then (some r.route_info, combinedScore r) else acc

/-- The optimal-route selection of `_determine_optimal_routes`
(lines 355-366): fold with initial best score `-1` and no route. -/
def selectOptimal (rs : List ScoredEntry) : Option RouteInfo :=
  (rs.foldl selStep (none, -1)).1

/-- The `routes_by_type` dictionary fill of `_determine_optimal_routes`
(lines 349-353), read back at one key: later routes overwrite earlier
ones sharing the same type. -/
def routesByType (rs : List ScoredEntry) (ty : String) : Option RouteInfo :=
  rs.foldl (fun acc r => if r.route_info.type == ty then some r.route_info else acc) none

/-- Response of the engine (air_quality_schema.py `RouteResponse`),
without the datetime field. -/
structure RouteResponse where
  success : Bool
  message : String
  fastest_route : Option RouteInfo := none
  shortest_route : Option RouteInfo := none
  healthiest_route : Option RouteInfo := none
  optimal_route : Option RouteInfo := none
  total_routes : ℕ

/-- `AirQualityService._determine_optimal_routes` (lines 338-376). -/
def determineOptimalRoutes (scored_routes : List ScoredEntry) : RouteResponse :=
  if scored_routes.isEmpty then
    { success := false
      message := "유효한 경로가 없습니다."
      total_routes := 0 }
  else
    { success := true
      message := toString scored_routes.length ++ "개의 경로를 성공적으로 계산했습니다."
      fastest_route := routesByType scored_routes "fastest"
      shortest_route := routesByType scored_routes "shortest"
      healthiest_route := routesByType scored_routes "healthiest"
      optimal_route := selectOptimal scored_routes
      total_routes := scored_routes.length }

/-- One air-quality record of the standalone route-logic service
(`src/backend/services/route-logic/main.py`, dict built at lines
212-222 / 242-254); every key is always present there. -/
structure RLAirQuality where
  latitude : ℚ
  longitude : ℚ
  pm25 : ℚ
  pm10 : ℚ
  o3 : ℚ
  no2 : ℚ
  air_quality_index : ℤ
  grade : String
  confidence : ℚ
deriving DecidableEq

/-- Python's `round` to 2 decimal places (half-to-even), on exact
rationals. -/
def round2 (x : ℚ) : ℚ :=
  (Int.cast (let y := x * 100
             let f := ⌊y⌋
             if y - f < 1 / 2 then f
             else if y - f > 1 / 2 then f + 1
             else if f % 2 = 0 then f else f + 1) : ℚ) / 100

/-- `calculate_route_air_quality_score` of route-logic `main.py`
(lines 257-268): returns the default score 50.0 on an empty list, else
a PM2.5-based clamped score rounded to 2 decimals. -/
def calculate_route_air_quality_score (air_quality_data : List RLAirQuality) : ℚ :=
  if air_quality_data = [] then 50.0
  else
    let pm25_values := air_quality_data.map (fun d => d.pm25)
    let avg_pm25 := pm25_values.sum / pm25_values.length
    round2 (max 0 (min 100 (100 - (avg_pm25 - 15) * 2)))

/-- A prediction record with every key missing. -/
def emptyPredictionRecord : PredictionRecord :=
  ⟨none, none, none, none, none, none, none⟩

/-- A prediction record whose present values coincide with the failure
default sample, confidence included. -/
def defaultLikeRecord : PredictionRecord :=
  ⟨some 25.0, some 40.0, some 0.05, some 0.02, some 50, some "moderate", some 0.5⟩

/-- Helper: a list of integers all equal to `c` sums to `c * length`. -/
lemma list_sum_const_int {l : List ℤ} {c : ℤ} (h : ∀ x ∈ l, x = c) :
    l.sum = c * l.length := by
  induction l with
  | nil => simp
  | cons a t ih =>
    have ha : a = c := h a (by simp)
    have ht := ih (fun x hx => h x (by simp [hx]))
    simp only [List.sum_cons, List.length_cons, ha, ht]
    push_cast
    ring

/-- Helper: a list of integers all at least `c` sums to at least
`c * length`. -/
lemma list_sum_lower_int {l : List ℤ} {c : ℤ} (h : ∀ x ∈ l, c ≤ x) :
    c * l.length ≤ l.sum := by
  induction l with
  | nil => simp
  | cons a t ih =>
    have ha : c ≤ a := h a (by simp)
    have ht := ih (fun x hx => h x (by simp [hx]))
    simp only [List.sum_cons, List.length_cons]
    push_cast
    linarith

/-- C1 (counterexample) — a single sample with air-quality index 75 is
scored 50, not 0, refuting the claim's "index ≥ 75 maps to score 0". -/
theorem airQualityScore_index75 :
    airQualityScoreOf [⟨25.0, 40.0, 0.05, 0.02, 75, "moderate", 0.5⟩] = 50
    ∧ (50 : ℚ) ≠ 0 := by
  constructor
  · norm_num [airQualityScoreOf, avgAqiOf, min_def, max_def]
  · norm_num

/-- C1 (amended) — for every non-empty sample list the route score is
exactly `clamp(100 − (avgIndex − 50) × 2, 0, 100)` and lies in
`[0, 100]`; all indices 50 give score 100, and the score reaches 0 only
once the average index is 100 or more (not 75). -/
theorem airQualityScore_formula (data : List AirQualityData) (h : data ≠ []) :
    airQualityScoreOf data = clampQ (100 - (avgAqiOf data - 50) * 2) 0 100
    ∧ 0 ≤ airQualityScoreOf data
    ∧ airQualityScoreOf data ≤ 100
    ∧ ((∀ s ∈ data, s.air_quality_index = 50) → airQualityScoreOf data = 100)
    ∧ ((∀ s ∈ data, (100 : ℤ) ≤ s.air_quality_index) → airQualityScoreOf data = 0) := by
  have hn : (0 : ℚ) < (data.length : ℚ) := by
    exact_mod_cast List.length_pos.mpr h
  refine ⟨rfl, le_max_left _ _, max_le (by norm_num) (min_le_left _ _), ?_, ?_⟩
  · intro hall
    have hsum : (data.map (fun aq => aq.air_quality_index)).sum = 50 * data.length := by
      have := list_sum_const_int (l := data.map (fun aq => aq.air_quality_index)) (c := 50)
        (fun x hx => by
          obtain ⟨s, hs, rfl⟩ := List.mem_map.mp hx
          exact hall s hs)
      rwa [List.length_map] at this
    have havg : avgAqiOf data = 50 := by
      unfold avgAqiOf
      rw [hsum]
      push_cast
      field_simp
    unfold airQualityScoreOf
    rw [havg]
    norm_num
  · intro hall
    have hsum : (100 : ℤ) * data.length ≤ (data.map (fun aq => aq.air_quality_index)).sum := by
      have := list_sum_lower_int (l := data.map (fun aq => aq.air_quality_index)) (c := 100)
        (fun x hx => by
          obtain ⟨s, hs, rfl⟩ := List.mem_map.mp hx
          exact hall s hs)
      rwa [List.length_map] at this
    have havg : (100 : ℚ) ≤ avgAqiOf data := by
      unfold avgAqiOf
      rw [le_div_iff₀ hn]
      exact_mod_cast hsum
    unfold airQualityScoreOf
    have hx : 100 - (avgAqiOf data - 50) * 2 ≤ 0 := by linarith
    exact max_eq_left (le_trans (min_le_right _ _) hx)

/-- C1 (witness) — the amended theorem applied to the one-element default
sample list. -/
theorem airQualityScore_formula_witness :
    ([defaultAirQuality] : List AirQualityData) ≠ []
    ∧ (airQualityScoreOf [defaultAirQuality] =
          clampQ (100 - (avgAqiOf [defaultAirQuality] - 50) * 2) 0 100
        ∧ 0 ≤ airQualityScoreOf [defaultAirQuality]
        ∧ airQualityScoreOf [defaultAirQuality] ≤ 100
        ∧ ((∀ s ∈ [defaultAirQuality], s.air_quality_index = 50) →
            airQualityScoreOf [defaultAirQuality] = 100)
        ∧ ((∀ s ∈ [defaultAirQuality], (100 : ℤ) ≤ s.air_quality_index) →
            airQualityScoreOf [defaultAirQuality] = 0)) :=
  ⟨by simp, airQualityScore_formula [defaultAirQuality] (by simp)⟩

/-- C7 (counterexample) — on a single-waypoint input the sampler returns
the empty list: a normal result, not a raised `InvalidInputError`. -/
theorem sampleRouteCoordinates_singleton :
    sampleRouteCoordinates [⟨37.5, 127.0⟩] 10 = [] := by
  norm_num [sampleRouteCoordinates]

/-- C7 (amended) — with fewer than 2 waypoints the sampler silently
returns `[]`; no exception is raised. -/
theorem sampleRouteCoordinates_short (waypoints : List Coordinate) (n : ℕ)
    (h : waypoints.length < 2) :
    sampleRouteCoordinates waypoints n = [] := by
  unfold sampleRouteCoordinates
  rw [if_pos h]

/-- C7 (witness) — the amended theorem applied to the empty waypoint
list. -/
theorem sampleRouteCoordinates_short_witness :
    ([] : List Coordinate).length < 2
    ∧ sampleRouteCoordinates [] 10 = [] :=
  ⟨by norm_num, sampleRouteCoordinates_short [] 10 (by norm_num)⟩

/-- C6 (counterexample) — the route-logic scorer
`calculate_route_air_quality_score` maps an empty sample list to the
default score 50.0 instead of failing or excluding the route. -/
theorem rlScore_empty_is_default :
    calculate_route_air_quality_score [] = 50 := by
  norm_num [calculate_route_air_quality_score]

/-- C6 (amended) — in the engine a route whose sample list is empty gets
no score at all (`scoreRoute` yields `none`, the loop's `continue`) and
`_calculate_route_scores` hands the selector exactly the routes with a
non-empty sample list. -/
theorem emptySamples_excluded (r : ProcessedRoute) (routes : List ProcessedRoute)
    (h : r.air_quality_data = []) :
    scoreRoute r = none
    ∧ calculateRouteScores routes
        = calculateRouteScores (routes.filter (fun q => !q.air_quality_data.isEmpty)) := by
  constructor
  · unfold scoreRoute
    rw [if_pos h]
  · unfold calculateRouteScores
    induction routes with
    | nil => rfl
    | cons q qs ih =>
      by_cases hq : q.air_quality_data = []
      · have hnone : scoreRoute q = none := by
          unfold scoreRoute
          rw [if_pos hq]
        simp [List.filterMap_cons, hnone, hq, ih]
      · have hsome : (scoreRoute q).isSome := by
          unfold scoreRoute
          rw [if_neg hq]
          rfl
        obtain ⟨e, he⟩ := Option.isSome_iff_exists.mp hsome
        simp [List.filterMap_cons, he, List.isEmpty_iff, hq, ih]

/-- C6 (witness) — the amended theorem applied to a concrete sampleless
route. -/
theorem emptySamples_excluded_witness :
    (⟨"route_001", "fastest", 25, 3, "poly", [], []⟩ : ProcessedRoute).air_quality_data = []
    ∧ (scoreRoute ⟨"route_001", "fastest", 25, 3, "poly", [], []⟩ = none
      ∧ calculateRouteScores [⟨"route_001", "fastest", 25, 3, "poly", [], []⟩]
          = calculateRouteScores
              ([⟨"route_001", "fastest", 25, 3, "poly", [], []⟩].filter
                (fun q => !q.air_quality_data.isEmpty))) :=
  ⟨rfl, emptySamples_excluded _ _ rfl⟩

/-- C3 (counterexample) — a fully successful oracle response whose first
record carries the default's values parses to a sample literally equal
to the failure default: `AirQualityData` has no `wasDefaulted` flag, so
a defaulted sample is not distinguishable from an estimated one. -/
theorem estimated_sample_equals_default :
    getPredictionForCoord (.http 200 true [defaultLikeRecord])
      = getPredictionForCoord .error := by
  simp [getPredictionForCoord, parsePrediction, defaultLikeRecord, defaultAirQuality]

/-- C3 (amended) — on every oracle failure (exception, non-200 status,
`success` false, or empty `predictions`) the client returns the fixed
default sample pm2.5 = 25.0, pm10 = 40.0, o3 = 0.05, no2 = 0.02,
index = 50, grade "moderate", confidence = 0.5; no `wasDefaulted` flag
exists. -/
theorem oracleFailure_yields_default (resp : OracleResponse)
    (h : oracleFailed resp = true) :
    getPredictionForCoord resp = defaultAirQuality
    ∧ defaultAirQuality = ⟨25.0, 40.0, 0.05, 0.02, 50, "moderate", 0.5⟩ := by
  refine ⟨?_, rfl⟩
  cases resp with
  | error => rfl
  | http status success predictions =>
    simp only [oracleFailed] at h
    simp only [getPredictionForCoord]
    by_cases hs : status = 200
    · rw [if_pos hs]
      cases predictions with
      | nil => rfl
      | cons p rest =>
        have hsu : success = false := by
          simp [hs] at h
          exact h
        rw [hsu]
        simp
    · rw [if_neg hs]

/-- C3 (witness) — the amended theorem applied to the exception
outcome. -/
theorem oracleFailure_yields_default_witness :
    oracleFailed .error = true
    ∧ (getPredictionForCoord .error = defaultAirQuality
      ∧ defaultAirQuality = ⟨25.0, 40.0, 0.05, 0.02, 50, "moderate", 0.5⟩) :=
  ⟨rfl, oracleFailure_yields_default .error rfl⟩

/-- C10 — on a 200/success response with a non-empty `predictions` list
the client substitutes per-field defaults for missing keys; a missing
`confidence` becomes 0.8 (not the failure default's 0.5), so such a
sample differs from `defaultAirQuality`; with every key missing the
parsed sample is the per-field default record with confidence 0.8. -/
theorem missingKeys_silent_defaults (rec : PredictionRecord)
    (preds : List PredictionRecord) (h : rec.confidence = none) :
    getPredictionForCoord (.http 200 true (rec :: preds)) = parsePrediction rec
    ∧ (parsePrediction rec).confidence = 0.8
    ∧ parsePrediction rec ≠ defaultAirQuality
    ∧ parsePrediction emptyPredictionRecord
        = ⟨25.0, 40.0, 0.05, 0.02, 50, "moderate", 0.8⟩ := by
  refine ⟨by simp [getPredictionForCoord], ?_, ?_, rfl⟩
  · simp [parsePrediction, h]
  · intro heq
    have hc := congrArg AirQualityData.confidence heq
    simp [parsePrediction, h, defaultAirQuality] at hc
    norm_num at hc

/-- C10 (witness) — the theorem applied to the all-keys-missing
record. -/
theorem missingKeys_silent_defaults_witness :
    emptyPredictionRecord.confidence = none
    ∧ (getPredictionForCoord (.http 200 true [emptyPredictionRecord])
          = parsePrediction emptyPredictionRecord
      ∧ (parsePrediction emptyPredictionRecord).confidence = 0.8
      ∧ parsePrediction emptyPredictionRecord ≠ defaultAirQuality
      ∧ parsePrediction emptyPredictionRecord
          = ⟨25.0, 40.0, 0.05, 0.02, 50, "moderate", 0.8⟩) :=
  ⟨rfl, missingKeys_silent_defaults emptyPredictionRecord [] rfl⟩

/-- Helper: the sampled list is the image of `0..n` under the
interpolation map once at least two waypoints are given. -/
lemma sampleRouteCoordinates_eq_map (waypoints : List Coordinate) (n : ℕ)
    (h2 : 2 ≤ waypoints.length) :
    sampleRouteCoordinates waypoints n = (List.range (n + 1)).map fun i =>
      { latitude := waypoints.headI.latitude +
          (waypoints.getLastI.latitude - waypoints.headI.latitude) * ((i : ℚ) / (n : ℚ))
        longitude := waypoints.headI.longitude +
          (waypoints.getLastI.longitude - waypoints.headI.longitude) * ((i : ℚ) / (n : ℚ)) } := by
  unfold sampleRouteCoordinates
  rw [if_neg (not_lt.mpr h2)]

/-- C4 — with at least 2 waypoints and a positive sample count `n`, the
sampler yields exactly `n + 1` coordinates, the `i`-th being the `i/n`
linear interpolation between the first and the last waypoint only; the
first output is the route start, the last is the route end, and
intermediate waypoints are ignored. -/
theorem sampleRouteCoordinates_spec (waypoints : List Coordinate) (n : ℕ)
    (h2 : 2 ≤ waypoints.length) (hn : 0 < n) :
    (sampleRouteCoordinates waypoints n).length = n + 1
    ∧ (∀ i, i ≤ n → (sampleRouteCoordinates waypoints n).getD i default =
        { latitude := waypoints.headI.latitude +
            (waypoints.getLastI.latitude - waypoints.headI.latitude) * ((i : ℚ) / (n : ℚ))
          longitude := waypoints.headI.longitude +
            (waypoints.getLastI.longitude - waypoints.headI.longitude) * ((i : ℚ) / (n : ℚ)) })
    ∧ (sampleRouteCoordinates waypoints n).getD 0 default = waypoints.headI
    ∧ (sampleRouteCoordinates waypoints n).getD n default = waypoints.getLastI
    ∧ sampleRouteCoordinates waypoints n
        = sampleRouteCoordinates [waypoints.headI, waypoints.getLastI] n := by
  have hmap := sampleRouteCoordinates_eq_map waypoints n h2
  have hpoint : ∀ i, i ≤ n → (sampleRouteCoordinates waypoints n).getD i default =
      { latitude := waypoints.headI.latitude +
          (waypoints.getLastI.latitude - waypoints.headI.latitude) * ((i : ℚ) / (n : ℚ))
        longitude := waypoints.headI.longitude +
          (waypoints.getLastI.longitude - waypoints.headI.longitude) * ((i : ℚ) / (n : ℚ)) } := by
    intro i hi
    rw [hmap, List.getD_eq_getElem?_getD, List.getElem?_map,
      List.getElem?_range (Nat.lt_succ_of_le hi)]
    rfl
  refine ⟨by rw [hmap]; simp, hpoint, ?_, ?_, ?_⟩
  · rw [hpoint 0 (Nat.zero_le n)]
    simp
  · rw [hpoint n (le_refl n)]
    have hdiv : ((n : ℚ) / (n : ℚ)) = 1 := by
      rw [div_self]
      exact_mod_cast hn.ne'
    rw [hdiv]
    have harith : ∀ a b : ℚ, a + (b - a) * 1 = b := by
      intro a b
      ring
    rw [harith, harith]
  · rw [hmap, sampleRouteCoordinates_eq_map [waypoints.headI, waypoints.getLastI] n (by simp)]
    rfl

/-- C4 (witness) — the theorem applied to a 2-waypoint route and
`n = 2`. -/
theorem sampleRouteCoordinates_spec_witness :
    (2 : ℕ) ≤ ([⟨0, 0⟩, ⟨1, 1⟩] : List Coordinate).length ∧ (0 : ℕ) < 2
    ∧ ((sampleRouteCoordinates [⟨0, 0⟩, ⟨1, 1⟩] 2).length = 2 + 1
    ∧ (∀ i, i ≤ 2 → (sampleRouteCoordinates [⟨0, 0⟩, ⟨1, 1⟩] 2).getD i default =
        { latitude := ([⟨0, 0⟩, ⟨1, 1⟩] : List Coordinate).headI.latitude +
            (([⟨0, 0⟩, ⟨1, 1⟩] : List Coordinate).getLastI.latitude -
              ([⟨0, 0⟩, ⟨1, 1⟩] : List Coordinate).headI.latitude) * ((i : ℚ) / (2 : ℚ))
          longitude := ([⟨0, 0⟩, ⟨1, 1⟩] : List Coordinate).headI.longitude +
            (([⟨0, 0⟩, ⟨1, 1⟩] : List Coordinate).getLastI.longitude -
              ([⟨0, 0⟩, ⟨1, 1⟩] : List Coordinate).headI.longitude) * ((i : ℚ) / (2 : ℚ)) })
    ∧ (sampleRouteCoordinates [⟨0, 0⟩, ⟨1, 1⟩] 2).getD 0 default
        = ([⟨0, 0⟩, ⟨1, 1⟩] : List Coordinate).headI
    ∧ (sampleRouteCoordinates [⟨0, 0⟩, ⟨1, 1⟩] 2).getD 2 default
        = ([⟨0, 0⟩, ⟨1, 1⟩] : List Coordinate).getLastI
    ∧ sampleRouteCoordinates [⟨0, 0⟩, ⟨1, 1⟩] 2
        = sampleRouteCoordinates
            [([⟨0, 0⟩, ⟨1, 1⟩] : List Coordinate).headI,
              ([⟨0, 0⟩, ⟨1, 1⟩] : List Coordinate).getLastI] 2) :=
  ⟨by norm_num, by norm_num,
    sampleRouteCoordinates_spec [⟨0, 0⟩, ⟨1, 1⟩] 2 (by norm_num) (by norm_num)⟩

/-- Helper: the `routes_by_type` fold keeps the info of the last route of
the requested type seen so far. -/
lemma byType_foldl (ty : String) (l : List ScoredEntry) :
    ∀ acc : Option RouteInfo,
      l.foldl (fun a r => if r.route_info.type == ty then some r.route_info else a) acc
        = ((l.reverse.find? (fun r => r.route_info.type == ty)).map
            (fun r => r.route_info)).or acc := by
  induction l with
  | nil => intro acc; rfl
  | cons x xs ih =>
    intro acc
    rw [List.foldl_cons, ih, List.reverse_cons, List.find?_append]
    cases hf : xs.reverse.find? (fun r => r.route_info.type == ty) with
    | some r => rfl
    | none =>
      by_cases hx : x.route_info.type == ty
      · simp [List.find?, hx]
      · simp [List.find?, hx]

/-- Helper: `routesByType` returns the last route of the given type. -/
lemma routesByType_eq_lastMatch (rs : List ScoredEntry) (ty : String) :
    routesByType rs ty
      = ((rs.reverse.find? (fun r => r.route_info.type == ty)).map fun r => r.route_info) := by
  unfold routesByType
  rw [byType_foldl]
  cases (rs.reverse.find? (fun r => r.route_info.type == ty)).map (fun r => r.route_info) with
  | none => rfl
  | some r => rfl

/-- C8 — each per-category slot of the selection result holds the route
appearing last in input order among those sharing the category label
(`rs.reverse.find?` is exactly the last match in input order). -/
theorem perCategory_lastWriteWins (rs : List ScoredEntry) :
    (determineOptimalRoutes rs).fastest_route
      = ((rs.reverse.find? (fun r => r.route_info.type == "fastest")).map fun r => r.route_info)
    ∧ (determineOptimalRoutes rs).shortest_route
      = ((rs.reverse.find? (fun r => r.route_info.type == "shortest")).map fun r => r.route_info)
    ∧ (determineOptimalRoutes rs).healthiest_route
      = ((rs.reverse.find? (fun r => r.route_info.type == "healthiest")).map
          fun r => r.route_info) := by
  by_cases h : rs.isEmpty
  · have hnil : rs = [] := by
      cases rs with
      | nil => rfl
      | cons a l => simp at h
    subst hnil
    refine ⟨rfl, rfl, rfl⟩
  · unfold determineOptimalRoutes
    rw [if_neg (by simp [h])]
    exact ⟨routesByType_eq_lastMatch rs "fastest", routesByType_eq_lastMatch rs "shortest",
      routesByType_eq_lastMatch rs "healthiest"⟩

/-- Helper: when no element beats the accumulator's best score, the
selection fold leaves the accumulator unchanged. -/
lemma selFold_no_improve (l : List ScoredEntry) :
    ∀ acc : Option RouteInfo × ℚ,
      (∀ r ∈ l, combinedScore r ≤ acc.2) → l.foldl selStep acc = acc := by
  induction l with
  | nil => intro acc _h; rfl
  | cons x xs ih =>
    intro acc h
    have hx : ¬ (combinedScore x > acc.2) := not_lt.mpr (h x (by simp))
    have hstep : selStep acc x = acc := by
      simp only [selStep]
      rw [if_neg hx]
    rw [List.foldl_cons, hstep]
    exact ih acc (fun r hr => h r (by simp [hr]))

/-- Helper: whenever some list element beats the initial best score, the
selection fold returns the first element attaining the maximum combined
score (all earlier elements are strictly below it). -/
lemma selFold_first_max (l : List ScoredEntry) :
    ∀ (o : Option RouteInfo) (b : ℚ),
      (∃ r ∈ l, b < combinedScore r) →
      ∃ i, ∃ hi : i < l.length,
        l.foldl selStep (o, b)
            = (some ((l.get ⟨i, hi⟩).route_info), combinedScore (l.get ⟨i, hi⟩))
        ∧ b < combinedScore (l.get ⟨i, hi⟩)
        ∧ (∀ j (hj : j < l.length),
            combinedScore (l.get ⟨j, hj⟩) ≤ combinedScore (l.get ⟨i, hi⟩))
        ∧ (∀ j (hj : j < l.length), j < i →
            combinedScore (l.get ⟨j, hj⟩) < combinedScore (l.get ⟨i, hi⟩)) := by
  induction l with
  | nil =>
    intro o b hex
    simp at hex
  | cons x xs ih =>
    intro o b hex
    rw [List.foldl_cons]
    by_cases hx : b < combinedScore x
    · have hstep : selStep (o, b) x = (some x.route_info, combinedScore x) := by
        simp only [selStep]
        rw [if_pos hx]
      rw [hstep]
      by_cases hex2 : ∃ r ∈ xs, combinedScore x < combinedScore r
      · obtain ⟨i, hi, heq, hgt, hmax, hstrict⟩ := ih (some x.route_info) (combinedScore x) hex2
        refine ⟨i + 1, Nat.succ_lt_succ hi, ?_, ?_, ?_, ?_⟩
        · simpa only [List.get_cons_succ] using heq
        · simpa only [List.get_cons_succ] using lt_trans hx hgt
        · intro j hj
          cases j with
          | zero =>
            simpa only [List.get_cons_zero, List.get_cons_succ] using le_of_lt hgt
          | succ k =>
            have hk : k < xs.length := Nat.lt_of_succ_lt_succ hj
            simpa only [List.get_cons_succ] using hmax k hk
        · intro j hj hji
          cases j with
          | zero =>
            simpa only [List.get_cons_zero, List.get_cons_succ] using hgt
          | succ k =>
            have hk : k < xs.length := Nat.lt_of_succ_lt_succ hj
            simpa only [List.get_cons_succ] using hstrict k hk (Nat.lt_of_succ_lt_succ hji)
      · push_neg at hex2
        rw [selFold_no_improve xs (some x.route_info, combinedScore x)
          (fun r hr => hex2 r hr)]
        refine ⟨0, Nat.succ_pos _, rfl, by simpa only [List.get_cons_zero] using hx, ?_, ?_⟩
        · intro j hj
          cases j with
          | zero => simp
          | succ k =>
            have hk : k < xs.length := Nat.lt_of_succ_lt_succ hj
            simpa only [List.get_cons_succ, List.get_cons_zero] using
              hex2 (xs.get ⟨k, hk⟩) (xs.get_mem k hk)
        · intro j hj hji
          exact absurd hji (Nat.not_lt_zero j)
    · have hstep : selStep (o, b) x = (o, b) := by
        simp only [selStep]
        rw [if_neg hx]
      rw [hstep]
      obtain ⟨r, hr, hbr⟩ := hex
      have hr' : r ∈ xs := by
        rcases List.mem_cons.mp hr with h1 | h1
        · exact absurd (h1 ▸ hbr) hx
        · exact h1
      obtain ⟨i, hi, heq, hgt, hmax, hstrict⟩ := ih o b ⟨r, hr', hbr⟩
      have hxle : combinedScore x ≤ b := not_lt.mp hx
      refine ⟨i + 1, Nat.succ_lt_succ hi, ?_, ?_, ?_, ?_⟩
      · simpa only [List.get_cons_succ] using heq
      · simpa only [List.get_cons_succ] using hgt
      · intro j hj
        cases j with
        | zero =>
          simpa only [List.get_cons_zero, List.get_cons_succ] using
            le_of_lt (lt_of_le_of_lt hxle hgt)
        | succ k =>
          have hk : k < xs.length := Nat.lt_of_succ_lt_succ hj
          simpa only [List.get_cons_succ] using hmax k hk
      · intro j hj hji
        cases j with
        | zero =>
          simpa only [List.get_cons_zero, List.get_cons_succ] using lt_of_le_of_lt hxle hgt
        | succ k =>
          have hk : k < xs.length := Nat.lt_of_succ_lt_succ hj
          simpa only [List.get_cons_succ] using hstrict k hk (Nat.lt_of_succ_lt_succ hji)

/-- C2 — on a non-empty scored-route list (scores are in `[0, 100]`, so
non-negative) the selection marks as optimal the first route attaining
the maximum `combinedScore = airQualityScore × 0.7 + timeScore × 0.3`:
every route scores no higher, and every earlier route scores strictly
lower (strict `>` comparison means first-encountered wins ties). -/
theorem optimalRoute_first_strict_max (rs : List ScoredEntry)
    (hne : rs ≠ []) (hpos : ∀ r ∈ rs, 0 ≤ r.air_quality_score) :
    ∃ i, ∃ hi : i < rs.length,
      (determineOptimalRoutes rs).optimal_route = some ((rs.get ⟨i, hi⟩).route_info)
      ∧ (∀ j (hj : j < rs.length),
          combinedScore (rs.get ⟨j, hj⟩) ≤ combinedScore (rs.get ⟨i, hi⟩))
      ∧ (∀ j (hj : j < rs.length), j < i →
          combinedScore (rs.get ⟨j, hj⟩) < combinedScore (rs.get ⟨i, hi⟩)) := by
  have hcomb : ∀ r ∈ rs, (-1 : ℚ) < combinedScore r := by
    intro r hr
    have h1 : 0 ≤ r.air_quality_score * 0.7 := mul_nonneg (hpos r hr) (by norm_num)
    have h2 : (0 : ℚ) ≤ timeScore r := le_max_left _ _
    have h3 : 0 ≤ timeScore r * 0.3 := mul_nonneg h2 (by norm_num)
    unfold combinedScore
    linarith
  obtain ⟨r0, hr0⟩ := List.exists_mem_of_ne_nil rs hne
  obtain ⟨i, hi, heq, _hgt, hmax, hstrict⟩ :=
    selFold_first_max rs none (-1) ⟨r0, hr0, hcomb r0 hr0⟩
  refine ⟨i, hi, ?_, hmax, hstrict⟩
  have hopt : (determineOptimalRoutes rs).optimal_route = selectOptimal rs := by
    unfold determineOptimalRoutes
    rw [if_neg (by simp [hne])]
  rw [hopt]
  unfold selectOptimal
  rw [heq]

/-- A concrete evaluated route used to instantiate the selection
theorem. -/
def routeInfoA : RouteInfo :=
  ⟨"route_001", "fastest", 25, 3, 50, 100, ⟨25, 40, 1/20, 1/50⟩, [], [], "dummy_polyline_fastest"⟩

/-- The concrete scored entry wrapping `routeInfoA`. -/
def entryA : ScoredEntry := ⟨routeInfoA, 100, 25, 3⟩

/-- C2 (witness) — the selection theorem applied to the one-route
list. -/
theorem optimalRoute_first_strict_max_witness :
    ([entryA] : List ScoredEntry) ≠ []
    ∧ (∀ r ∈ ([entryA] : List ScoredEntry), 0 ≤ r.air_quality_score)
    ∧ (∃ i, ∃ hi : i < ([entryA] : List ScoredEntry).length,
        (determineOptimalRoutes [entryA]).optimal_route
            = some ((([entryA] : List ScoredEntry).get ⟨i, hi⟩).route_info)
        ∧ (∀ j (hj : j < ([entryA] : List ScoredEntry).length),
            combinedScore (([entryA] : List ScoredEntry).get ⟨j, hj⟩)
              ≤ combinedScore (([entryA] : List ScoredEntry).get ⟨i, hi⟩))
        ∧ (∀ j (hj : j < ([entryA] : List ScoredEntry).length), j < i →
            combinedScore (([entryA] : List ScoredEntry).get ⟨j, hj⟩)
              < combinedScore (([entryA] : List ScoredEntry).get ⟨i, hi⟩))) :=
  ⟨by simp,
    by
      intro r hr
      rw [List.mem_singleton] at hr
      subst hr
      norm_num [entryA],
    optimalRoute_first_strict_max [entryA] (by simp)
      (by
        intro r hr
        rw [List.mem_singleton] at hr
        subst hr
        norm_num [entryA])⟩

/-- Helper: `atan2 y x` is non-negative whenever `y` is. -/
lemma atan2_nonneg {y x : ℝ} (hy : 0 ≤ y) : 0 ≤ atan2 y x := by
  unfold atan2
  split_ifs with h1 h2 h3 h4
  · calc (0 : ℝ) = Real.arctan 0 := Real.arctan_zero.symm
      _ ≤ Real.arctan (y / x) :=
        Real.arctan_strictMono.monotone (div_nonneg hy h1.le)
  · linarith [Real.pi_pos]
  · linarith
  · exact le_refl 0
  · linarith [Real.pi_pos, Real.neg_pi_div_two_lt_arctan (y / x)]

/-- Helper: the Haversine distance is non-negative. -/
lemma calculate_distance_nonneg (lat1 lon1 lat2 lon2 : ℝ) :
    0 ≤ calculate_distance lat1 lon1 lat2 lon2 := by
  unfold calculate_distance
  have h := atan2_nonneg (x := Real.sqrt (1 - havA lat1 lon1 lat2 lon2))
    (Real.sqrt_nonneg (havA lat1 lon1 lat2 lon2))
  linarith

/-- Helper: the Haversine intermediate `a` is symmetric in its two
coordinates. -/
lemma havA_comm (lat1 lon1 lat2 lon2 : ℝ) :
    havA lat1 lon1 lat2 lon2 = havA lat2 lon2 lat1 lon1 := by
  unfold havA radians
  rw [show lat1 - lat2 = -(lat2 - lat1) by ring, show lon1 - lon2 = -(lon2 - lon1) by ring]
  rw [show -(lat2 - lat1) * (Real.pi / 180) / 2 = -((lat2 - lat1) * (Real.pi / 180) / 2) by ring]
  rw [show -(lon2 - lon1) * (Real.pi / 180) / 2 = -((lon2 - lon1) * (Real.pi / 180) / 2) by ring]
  rw [Real.sin_neg, Real.sin_neg]
  ring

/-- C9 — the Haversine distance of a coordinate to itself is 0, and the
distance is symmetric in its two coordinates. -/
theorem calculate_distance_self_and_symm :
    (∀ lat lon : ℝ, calculate_distance lat lon lat lon = 0)
    ∧ ∀ lat1 lon1 lat2 lon2 : ℝ,
        calculate_distance lat1 lon1 lat2 lon2 = calculate_distance lat2 lon2 lat1 lon1 := by
  constructor
  · intro lat lon
    have ha : havA lat lon lat lon = 0 := by
      unfold havA radians
      simp
    unfold calculate_distance
    rw [ha]
    norm_num [atan2, Real.arctan_zero]
  · intro lat1 lon1 lat2 lon2
    unfold calculate_distance
    rw [havA_comm]

/-- Fallback segment used only as the out-of-range default of `List.getD`
in statements about segment lists. -/
noncomputable def segDefault : RouteSegment :=
  ⟨default, default, 0, 5, defaultAirQuality, ""⟩

/-- C5 — given `N ≥ 2` coordinates with `N` samples, the segment builder
produces exactly `N − 1` segments; segment `i` joins coordinates `i` and
`i + 1`, carries their (non-negative) Haversine distance, the constant
5-minute duration, the sample of its starting coordinate, and the
ordinal instruction string. -/
theorem createRouteSegments_spec (coords : List Coordinate) (samples : List AirQualityData)
    (h2 : 2 ≤ coords.length) (hlen : samples.length = coords.length) :
    (createRouteSegments coords samples).length = coords.length - 1
    ∧ ∀ i, i < coords.length - 1 →
        (createRouteSegments coords samples).getD i segDefault
          = ⟨coords.getD i default, coords.getD (i + 1) default,
              calculate_distance (coords.getD i default).latitude
                (coords.getD i default).longitude
                (coords.getD (i + 1) default).latitude
                (coords.getD (i + 1) default).longitude,
              5, samples.getD i defaultAirQuality,
              toString (i + 1) ++ "번째 구간을 따라 이동하세요"⟩
        ∧ 0 ≤ ((createRouteSegments coords samples).getD i segDefault).distance := by
  constructor
  · unfold createRouteSegments
    simp
  · intro i hi
    have hsl : i < samples.length := by omega
    have hval : (createRouteSegments coords samples).getD i segDefault
        = ⟨coords.getD i default, coords.getD (i + 1) default,
            calculate_distance (coords.getD i default).latitude
              (coords.getD i default).longitude
              (coords.getD (i + 1) default).latitude
              (coords.getD (i + 1) default).longitude,
            5, samples.getD i defaultAirQuality,
            toString (i + 1) ++ "번째 구간을 따라 이동하세요"⟩ := by
      unfold createRouteSegments
      rw [List.getD_eq_getElem?_getD, List.getElem?_map, List.getElem?_range hi]
      simp [hsl]
    refine ⟨hval, ?_⟩
    rw [hval]
    exact calculate_distance_nonneg _ _ _ _

/-- Concrete 3-point coordinate list for the segment-builder witness. -/
def coordsW : List Coordinate := [⟨0, 0⟩, ⟨0, 1⟩, ⟨1, 1⟩]

/-- Concrete 3-sample list for the segment-builder witness. -/
def samplesW : List AirQualityData := [defaultAirQuality, defaultAirQuality, defaultAirQuality]

/-- C5 (witness) — the segment-builder theorem applied to a 3-point
route with 3 samples. -/
theorem createRouteSegments_spec_witness :
    2 ≤ coordsW.length ∧ samplesW.length = coordsW.length
    ∧ ((createRouteSegments coordsW samplesW).length = coordsW.length - 1
    ∧ ∀ i, i < coordsW.length - 1 →
        (createRouteSegments coordsW samplesW).getD i segDefault
          = ⟨coordsW.getD i default, coordsW.getD (i + 1) default,
              calculate_distance (coordsW.getD i default).latitude
                (coordsW.getD i default).longitude
                (coordsW.getD (i + 1) default).latitude
                (coordsW.getD (i + 1) default).longitude,
              5, samplesW.getD i defaultAirQuality,
              toString (i + 1) ++ "번째 구간을 따라 이동하세요"⟩
        ∧ 0 ≤ ((createRouteSegments coordsW samplesW).getD i segDefault).distance) :=
  ⟨by norm_num [coordsW], by norm_num [coordsW, samplesW],
    createRouteSegments_spec coordsW samplesW (by norm_num [coordsW])
      (by norm_num [coordsW, samplesW])⟩

end CleanAirRoute
